import Mathlib

/-!
Shallow embedding of the lukso-orchestrator core, translated from the Go
source: the kv store for verified slot infos (orchestrator/db/kv), the
vanguardchain subscriber handlers, and the bounded pandora-header slot
cache (orchestrator/cache, modelled from the spec where the implementation
is absent from the surveyed sources).
-/

namespace Orchestrator

/-- common.Hash (32 bytes), modelled as a natural number. -/
abbrev Hash := Nat

/-- common.HexToHash("0000...0000"): the all-zero hash. -/
def EmptyHash : Hash := 0

/-- The error message of kv.errInvalidSlot. -/
def errInvalidSlot : String := "invalid slot and not found any verified slot info for the given slot"

/-- types.SlotInfo: the per-slot verdict record stored by the kv store. -/
structure SlotInfo where
  vanguardBlockHash : Hash
  pandoraHeaderHash : Hash
deriving DecidableEq

/-- kv.Store: the on-disk bolt database (the verifiedSlotInfos bucket split by
key kind: 8-byte slot keys, the latestSavedVerifiedSlotKey entry and the
latestHeaderHashKey entry), the ristretto read cache, the in-memory mirrors
latestVerifiedSlot / latestHeaderHash / latestEpoch and the isRunning flag. -/
structure Store where
  isRunning : Bool
  latestVerifiedSlot : Nat
  latestHeaderHash : Hash
  latestEpoch : Nat
  verifiedSlotInfoCache : Nat → Option SlotInfo
  slotsBucket : Nat → Option SlotInfo
  dbLatestVerifiedSlot : Option Nat
  dbLatestHeaderHash : Option Hash
  dbLatestEpoch : Option Nat

/-- Store.VerifiedSlotInfo: read-through — the ristretto cache first, then the
bucket; a missing bucket entry leaves slotInfo nil and returns a nil error. -/
def Store.VerifiedSlotInfo (s : Store) (slot : Nat) : Option SlotInfo × Option String :=
  match s.verifiedSlotInfoCache slot with
  | some v => (some v, none)
  | none =>
    match s.slotsBucket slot with
    | none => (none, none)
    | some v => (some v, none)

/-- Store.LatestSavedVerifiedSlot: a local variable starts at zero and is
assigned from the db only when the store is not running; the local is
returned in every case (the running branch never assigns it). -/
def Store.LatestSavedVerifiedSlot (s : Store) : Nat :=
  if s.isRunning then 0
  else match s.dbLatestVerifiedSlot with
       | none => 0
       | some v => v

/-- Store.LatestVerifiedHeaderHash: same shape — the local hash is read from
the db only when the store is not running, EmptyHash when the key is absent,
and the zero value is returned while running. -/
def Store.LatestVerifiedHeaderHash (s : Store) : Hash :=
  if s.isRunning then 0
  else match s.dbLatestHeaderHash with
       | none => EmptyHash
       | some h => h

/-- Store.SaveVerifiedSlotInfo: one bolt update writes the encoded slot info
under the big-endian slot key, sets the ristretto cache entry, and sets the
in-memory mirrors latestVerifiedSlot := slot and
latestHeaderHash := slotInfo.PandoraHeaderHash; the persisted cursor keys are
not touched and no slot comparison is made. Returns a nil error. -/
def Store.SaveVerifiedSlotInfo (s : Store) (slot : Nat) (slotInfo : SlotInfo) :
    Store × Option String :=
  ({ s with
      slotsBucket := fun k => if k = slot then some slotInfo else s.slotsBucket k
      verifiedSlotInfoCache := fun k => if k = slot then some slotInfo else s.verifiedSlotInfoCache k
      latestVerifiedSlot := slot
      latestHeaderHash := slotInfo.pandoraHeaderHash },
   none)

/-- The loop body of Store.VerifiedSlotInfos: for each slot of the range the
cache is consulted first, then the bucket, and a slot with neither entry is
skipped. -/
def Store.collectSlotInfos (s : Store) (fromSlot latest : Nat) : List (Nat × SlotInfo) :=
  (List.range (latest + 1 - fromSlot)).filterMap fun i =>
    match s.verifiedSlotInfoCache (fromSlot + i) with
    | some v => some (fromSlot + i, v)
    | none =>
      match s.slotsBucket (fromSlot + i) with
      | some v => some (fromSlot + i, v)
      | none => none

/-- Store.VerifiedSlotInfos: errors with errInvalidSlot when fromSlot exceeds
LatestSavedVerifiedSlot(), otherwise walks slots fromSlot..latest collecting
the found entries. -/
def Store.VerifiedSlotInfos (s : Store) (fromSlot : Nat) :
    Except String (List (Nat × SlotInfo)) :=
  if fromSlot > s.LatestSavedVerifiedSlot then .error errInvalidSlot
  else .ok (s.collectSlotInfos fromSlot s.LatestSavedVerifiedSlot)

/-- The persisted cursor: the latestSavedVerifiedSlotKey entry of the bucket,
zero on a brand-new database. -/
def Store.persistedCursor (s : Store) : Nat :=
  match s.dbLatestVerifiedSlot with
  | none => 0
  | some v => v

/-- Store.SaveLatestVerifiedSlot: persists the in-memory latestVerifiedSlot
mirror under latestSavedVerifiedSlotKey. -/
def Store.SaveLatestVerifiedSlot (s : Store) : Store :=
  { s with dbLatestVerifiedSlot := some s.latestVerifiedSlot }

/-- Store.SaveLatestVerifiedHeaderHash: persists the in-memory
latestHeaderHash mirror under latestHeaderHashKey. -/
def Store.SaveLatestVerifiedHeaderHash (s : Store) : Store :=
  { s with dbLatestHeaderHash := some s.latestHeaderHash }

/-- Modelled from the spec: Store.Close is not among the surveyed sources
(only its callers and the test TestKV_Start_Stop are). Per the spec, Close
persists the in-memory cursors — through SaveLatestVerifiedSlot and
SaveLatestVerifiedHeaderHash, which are in the source — plus the latest
epoch, and marks the store not running. -/
def Store.Close (s : Store) : Store :=
  { s.SaveLatestVerifiedSlot.SaveLatestVerifiedHeaderHash with
      dbLatestEpoch := some s.latestEpoch
      isRunning := false }

/-- Modelled from the spec: NewKVStore on an existing database path is not
among the surveyed sources. Per the spec and TestKV_Start_Stop, opening
recovers the in-memory mirrors from the persisted cursor entries (zero /
EmptyHash on a brand-new database) and marks the store running. -/
def Store.reopen (s : Store) : Store :=
  { s with
      latestVerifiedSlot := match s.dbLatestVerifiedSlot with
                            | none => 0
                            | some v => v
      latestHeaderHash := match s.dbLatestHeaderHash with
                          | none => EmptyHash
                          | some h => h
      latestEpoch := match s.dbLatestEpoch with
                     | none => 0
                     | some e => e
      isRunning := true }

/-- types.MinimalEpochConsensusInfo. -/
structure MinimalEpochConsensusInfo where
  epoch : Nat
  validatorList : List String
  epochStartTime : Nat
  slotTimeDuration : Nat
deriving DecidableEq

/-- The externally visible calls made by vanguardchain.Service.OnNewConsensusInfo,
in program order. -/
inductive ConsEffect
  | sendConsensusInfo (ci : MinimalEpochConsensusInfo)
  | saveConsensusInfo (ci : MinimalEpochConsensusInfo)
deriving DecidableEq

/-- vanguardchain.Service.OnNewConsensusInfo as its effect trace: first
consensusInfoFeed.Send(consensusInfo), then
orchestratorDB.SaveConsensusInfo(ctx, consensusInfo) (a save failure is only
logged). -/
def Service.OnNewConsensusInfo (ci : MinimalEpochConsensusInfo) : List ConsEffect :=
  [ConsEffect.sendConsensusInfo ci, ConsEffect.saveConsensusInfo ci]

/-- eth.PandoraShard: the first shard of a vanguard beacon block body. -/
structure PandoraShard where
  blockNumber : Nat
  parentHash : Hash
  stateRoot : Hash
  receiptHash : Hash
  txHash : Hash
  signature : Nat
deriving DecidableEq

/-- types.Status of a header hash. -/
inductive Status
  | pending
  | verified
  | invalid
deriving DecidableEq

/-- types.HeaderHash as built by OnNewPendingVanguardBlock. -/
structure HeaderHash where
  headerHash : Hash
  status : Status
  blockNumber : Nat
  signature : Nat
  stateRoot : Hash
  receiptHash : Hash
  txHash : Hash
  parentHash : Hash
deriving DecidableEq

/-- eth.BeaconBlock as read by OnNewPendingVanguardBlock: its slot, the result
of block.HashTreeRoot() (none models the error return), and
block.Body.PandoraShard. -/
structure BeaconBlock where
  slot : Nat
  hashTreeRoot : Option Hash
  pandoraShards : List PandoraShard
deriving DecidableEq

/-- The externally visible calls made by
vanguardchain.Service.OnNewPendingVanguardBlock, in program order. -/
inductive VanEffect
  | readLatestVerifiedRealmSlot (v : Nat)
  | sendPendingBlockHash (h : HeaderHash)
  | saveVanguardHeaderHash (slot : Nat) (h : HeaderHash)
deriving DecidableEq

/-- Whether a VanEffect mutates or emits: a feed send or a db write (the
cursor read is neither). -/
def VanEffect.isMutation : VanEffect → Bool
  | .readLatestVerifiedRealmSlot _ => false
  | .sendPendingBlockHash _ => true
  | .saveVanguardHeaderHash _ _ => true

/-- The return path taken by OnNewPendingVanguardBlock. -/
inductive VanOutcome
  | droppedNilBlock
  | droppedReorg
  | droppedHashError
  | droppedNoShard
  | processed
deriving DecidableEq

/-- vanguardchain.Service.OnNewPendingVanguardBlock as its effect trace plus
outcome, translated line by line: nil guard; read
orchestratorDB.LatestVerifiedRealmSlot(); drop when block.Slot is below it;
HashTreeRoot; require a non-empty PandoraShard list; build types.HeaderHash
from shard 0; Send on vanguardPendingBlockHashFeed; then
SaveVanguardHeaderHash (a save failure is only logged). -/
def Service.OnNewPendingVanguardBlock (latestVerifiedRealmSlot : Nat)
    (block : Option BeaconBlock) : List VanEffect × VanOutcome :=
  match block with
  | none => ([], .droppedNilBlock)
  | some b =>
    let eff0 := [VanEffect.readLatestVerifiedRealmSlot latestVerifiedRealmSlot]
    if b.slot < latestVerifiedRealmSlot then (eff0, .droppedReorg)
    else
      match b.hashTreeRoot with
      | none => (eff0, .droppedHashError)
      | some blockHash =>
        match b.pandoraShards with
        | [] => (eff0, .droppedNoShard)
        | shardInfo :: _ =>
          let hh : HeaderHash :=
            { headerHash := blockHash
              status := .pending
              blockNumber := shardInfo.blockNumber
              signature := shardInfo.signature
              stateRoot := shardInfo.stateRoot
              receiptHash := shardInfo.receiptHash
              txHash := shardInfo.txHash
              parentHash := shardInfo.parentHash }
          (eff0 ++ [VanEffect.sendPendingBlockHash hh,
                    VanEffect.saveVanguardHeaderHash b.slot hh],
           .processed)

/-- The cache package's default maxCacheSize. -/
def maxCacheSize : Nat := 1 <<< 10

/-- The error message returned by the slot caches on a miss. -/
def invalidSlotMsg : String := "Invalid slot"

/-- Modelled from the spec: the PanHeaderCache implementation
(orchestrator/cache) is absent from the surveyed sources; only its tests are
present. The cache is an association of slot keys to entries kept in strictly
decreasing slot order, newest (largest) slot first. -/
abbrev SlotCache (V : Type) := List (Nat × V)

/-- Keys strictly decrease along the cache list. -/
abbrev SlotCache.SortedKeys {V : Type} (c : SlotCache V) : Prop :=
  c.Pairwise fun p q => q.1 < p.1

/-- Modelled from the spec: Get(slot) returns the entry or the
NotFound("Invalid slot") error. -/
def SlotCache.get {V : Type} (c : SlotCache V) (slot : Nat) : Except String V :=
  match c.find? (fun p => p.1 == slot) with
  | some p => .ok p.2
  | none => .error invalidSlotMsg

/-- Insert an entry keeping the strictly decreasing key order, replacing an
entry with the same slot. -/
def SlotCache.insertDesc {V : Type} (slot : Nat) (v : V) :
    SlotCache V → SlotCache V
  | [] => [(slot, v)]
  | (a, w) :: rest =>
    if a < slot then (slot, v) :: (a, w) :: rest
    else if a = slot then (slot, v) :: rest
    else (a, w) :: SlotCache.insertDesc slot v rest

/-- Modelled from the spec: Put(slot, v) inserts the entry; past the capacity
max the cache evicts LRU by slot, and on eviction of a slot everything at or
below it is dropped too — with the cache kept newest-first this keeps the max
largest slots. -/
def SlotCache.put {V : Type} (max : Nat) (slot : Nat) (v : V) (c : SlotCache V) :
    SlotCache V :=
  (SlotCache.insertDesc slot v c).take max

/-- The slots evicted by Put(slot, v) at capacity max. -/
def SlotCache.evictedKeys {V : Type} (max : Nat) (slot : Nat) (v : V)
    (c : SlotCache V) : List Nat :=
  ((SlotCache.insertDesc slot v c).drop max).map Prod.fst

/-- Modelled from the spec: Remove(r) drops every entry with slot at or
below r. -/
def SlotCache.remove {V : Type} (r : Nat) (c : SlotCache V) : SlotCache V :=
  c.filter fun p => r < p.1

/-- A sample slot info. -/
def sampleInfo : SlotInfo := { vanguardBlockHash := 7, pandoraHeaderHash := 5 }

/-- A closed store whose persisted and in-memory cursor stand at slot 10. -/
def store10 : Store :=
  { isRunning := false
    latestVerifiedSlot := 10
    latestHeaderHash := 3
    latestEpoch := 2
    verifiedSlotInfoCache := fun _ => none
    slotsBucket := fun _ => none
    dbLatestVerifiedSlot := some 10
    dbLatestHeaderHash := some 3
    dbLatestEpoch := some 2 }

/-- store10 with one verified slot info stored under slot 7. -/
def store10b : Store :=
  { store10 with slotsBucket := fun k => if k = 7 then some sampleInfo else none }

/-- A running store whose in-memory mirrors stand at slot 100. -/
def runningStore : Store :=
  { isRunning := true
    latestVerifiedSlot := 100
    latestHeaderHash := 93
    latestEpoch := 3
    verifiedSlotInfoCache := fun _ => none
    slotsBucket := fun _ => none
    dbLatestVerifiedSlot := some 100
    dbLatestHeaderHash := some 93
    dbLatestEpoch := some 3 }

/-- A sample pandora shard. -/
def shard0 : PandoraShard :=
  { blockNumber := 21, parentHash := 1, stateRoot := 2, receiptHash := 3
    txHash := 4, signature := 99 }

/-- A beacon block at slot 9 with a good hash-tree-root and one shard. -/
def block9 : BeaconBlock := { slot := 9, hashTreeRoot := some 42, pandoraShards := [shard0] }

/-- A beacon block at slot 10 with a good hash-tree-root and one shard. -/
def block10 : BeaconBlock := { slot := 10, hashTreeRoot := some 42, pandoraShards := [shard0] }

/-- A sample consensus info. -/
def ci0 : MinimalEpochConsensusInfo :=
  { epoch := 1, validatorList := ["0xabc"], epochStartTime := 1000, slotTimeDuration := 6 }

/-- C1, counterexample: with the stored cursor at slot 10,
SaveVerifiedSlotInfo(5, info) does not fail with InvalidSlot — it returns a
nil error — and the cursor afterwards is 5, not max(10, 5) = 10. -/
theorem saveVerifiedSlotInfo_below_cursor_succeeds :
    (store10.SaveVerifiedSlotInfo 5 sampleInfo).2 = none ∧
    ((store10.SaveVerifiedSlotInfo 5 sampleInfo).1).latestVerifiedSlot = 5 ∧
    max store10.latestVerifiedSlot 5 = 10 := by
  refine ⟨rfl, rfl, rfl⟩

/-- C1, amended: SaveVerifiedSlotInfo(slot, slotInfo) never fails with
InvalidSlot; it writes the slot info under the slot key, sets the in-memory
latest verified slot to slot unconditionally (even below the previous cursor)
and the in-memory latest header hash to slotInfo.PandoraHeaderHash, and
leaves the persisted cursor entries untouched in this call. -/
theorem saveVerifiedSlotInfo_spec (s : Store) (slot : Nat) (info : SlotInfo) :
    (s.SaveVerifiedSlotInfo slot info).2 = none ∧
    (s.SaveVerifiedSlotInfo slot info).1.latestVerifiedSlot = slot ∧
    (s.SaveVerifiedSlotInfo slot info).1.latestHeaderHash = info.pandoraHeaderHash ∧
    (s.SaveVerifiedSlotInfo slot info).1.dbLatestVerifiedSlot = s.dbLatestVerifiedSlot ∧
    (s.SaveVerifiedSlotInfo slot info).1.dbLatestHeaderHash = s.dbLatestHeaderHash ∧
    (s.SaveVerifiedSlotInfo slot info).1.slotsBucket slot = some info := by
  refine ⟨rfl, rfl, rfl, rfl, rfl, ?_⟩
  simp [Store.SaveVerifiedSlotInfo]

/-- C2: on a running store whose in-memory mirror stands at slot 100 (hash
93), LatestSavedVerifiedSlot() returns 0 and LatestVerifiedHeaderHash()
returns the zero hash — the running branch returns the uninitialised locals,
not the in-memory mirror the surrounding code and comments expect. -/
theorem latestSaved_running_returns_zero :
    runningStore.isRunning = true ∧
    runningStore.latestVerifiedSlot = 100 ∧
    runningStore.LatestSavedVerifiedSlot = 0 ∧
    runningStore.latestHeaderHash = 93 ∧
    runningStore.LatestVerifiedHeaderHash = 0 := by
  refine ⟨rfl, rfl, rfl, rfl, rfl⟩

/-- C5, counterexample: OnNewConsensusInfo does not save first and emit
second — its trace is not [save ci0, send ci0]. -/
theorem onNewConsensusInfo_not_save_first :
    Service.OnNewConsensusInfo ci0 ≠
      [ConsEffect.saveConsensusInfo ci0, ConsEffect.sendConsensusInfo ci0] := by
  decide

/-- C5, amended: for every epoch-info event, OnNewConsensusInfo first emits
the consensus info on the ConsensusInfoFeed and then saves it via
SaveConsensusInfo, in that order. -/
theorem onNewConsensusInfo_send_then_save (ci : MinimalEpochConsensusInfo) :
    Service.OnNewConsensusInfo ci =
      [ConsEffect.sendConsensusInfo ci, ConsEffect.saveConsensusInfo ci] := rfl

/-- C9: a nil beacon block makes OnNewPendingVanguardBlock return right after
the nil guard: no effect at all is performed — the cursor is not read, the
store is not written, no feed send happens — and, the function being total,
no panic occurs. -/
theorem onNewPendingVanguardBlock_nil (latest : Nat) :
    Service.OnNewPendingVanguardBlock latest none = ([], VanOutcome.droppedNilBlock) := rfl

/-- C6: after any writes, Close() followed by re-opening the same database
recovers latestVerifiedSlot, latestHeaderHash and latestEpoch exactly as they
stood before Close(). -/
theorem close_reopen_preserves_cursors (s : Store) :
    (s.Close.reopen).latestVerifiedSlot = s.latestVerifiedSlot ∧
    (s.Close.reopen).latestHeaderHash = s.latestHeaderHash ∧
    (s.Close.reopen).latestEpoch = s.latestEpoch := by
  refine ⟨rfl, rfl, rfl⟩

/-- C10: a slot with no stored verdict (neither in the read cache nor in the
bucket) makes VerifiedSlotInfo return a nil slot info together with a nil
error. -/
theorem verifiedSlotInfo_missing (s : Store) (slot : Nat)
    (hc : s.verifiedSlotInfoCache slot = none) (hb : s.slotsBucket slot = none) :
    s.VerifiedSlotInfo slot = (none, none) := by
  simp [Store.VerifiedSlotInfo, hc, hb]

/-- C10 witness: slot 3 of store10 holds no verdict and the lookup returns
(nil, nil). -/
theorem verifiedSlotInfo_missing_witness :
    store10.VerifiedSlotInfo 3 = (none, none) :=
  verifiedSlotInfo_missing store10 3 rfl rfl

/-- C3: a beacon block whose slot is strictly below the latest verified slot
is dropped by the reorg guard with the cursor read as the only effect — no
store write, no cache insertion, no feed emission — while a block at or above
the cursor is never rejected by this check. -/
theorem onNewPendingVanguardBlock_reorg (latest : Nat) (b : BeaconBlock) :
    (b.slot < latest →
      Service.OnNewPendingVanguardBlock latest (some b) =
        ([VanEffect.readLatestVerifiedRealmSlot latest], VanOutcome.droppedReorg)) ∧
    (b.slot < latest →
      ∀ e ∈ (Service.OnNewPendingVanguardBlock latest (some b)).1,
        e.isMutation = false) ∧
    (latest ≤ b.slot →
      (Service.OnNewPendingVanguardBlock latest (some b)).2 ≠ VanOutcome.droppedReorg) := by
  refine ⟨?_, ?_, ?_⟩
  · intro h
    simp [Service.OnNewPendingVanguardBlock, h]
  · intro h e he
    simp [Service.OnNewPendingVanguardBlock, h] at he
    simp [he, VanEffect.isMutation]
  · intro h
    have hlt : ¬ b.slot < latest := by omega
    rcases b with ⟨slot, htr, shards⟩
    rcases htr with _ | bh
    · simp [Service.OnNewPendingVanguardBlock, hlt]
    · rcases shards with _ | ⟨sh, rest⟩
      · simp [Service.OnNewPendingVanguardBlock, hlt]
      · simp [Service.OnNewPendingVanguardBlock, hlt]

/-- C3 witness: with the cursor at 10, the block at slot 9 is dropped by the
reorg guard with no mutation, and the block at slot 10 is not
reorg-rejected. -/
theorem onNewPendingVanguardBlock_reorg_witness :
    Service.OnNewPendingVanguardBlock 10 (some block9) =
      ([VanEffect.readLatestVerifiedRealmSlot 10], VanOutcome.droppedReorg) ∧
    (Service.OnNewPendingVanguardBlock 10 (some block10)).2 ≠ VanOutcome.droppedReorg :=
  ⟨(onNewPendingVanguardBlock_reorg 10 block9).1 (by decide),
   (onNewPendingVanguardBlock_reorg 10 block10).2.2 (by decide)⟩

/-- The accessor never exceeds the persisted cursor: while running it returns
zero, otherwise exactly the persisted entry. -/
theorem latestSaved_le_persistedCursor (s : Store) :
    s.LatestSavedVerifiedSlot ≤ s.persistedCursor := by
  unfold Store.LatestSavedVerifiedSlot Store.persistedCursor
  cases s.isRunning
  · exact Nat.le_refl _
  · exact Nat.zero_le _

/-- Every entry collected for the range fromSlot..latest has its slot inside
the range. -/
theorem collectSlotInfos_mem_bounds (s : Store) (fromSlot latest : Nat)
    (p : Nat × SlotInfo) (hp : p ∈ s.collectSlotInfos fromSlot latest) :
    fromSlot ≤ p.1 ∧ p.1 ≤ latest := by
  unfold Store.collectSlotInfos at hp
  rcases List.mem_filterMap.mp hp with ⟨i, hi, heq⟩
  have hir : i < latest + 1 - fromSlot := List.mem_range.mp hi
  have hfst : p.1 = fromSlot + i := by
    split at heq
    · cases heq; rfl
    · split at heq
      · cases heq; rfl
      · cases heq
  omega

/-- C4: VerifiedSlotInfos(fromSlot) fails with the invalid-slot error when
fromSlot exceeds the latest verified slot; otherwise every key of the
returned mapping lies between fromSlot and the persisted cursor inclusive. -/
theorem verifiedSlotInfos_spec (s : Store) (fromSlot : Nat) :
    (s.LatestSavedVerifiedSlot < fromSlot →
      s.VerifiedSlotInfos fromSlot = .error errInvalidSlot) ∧
    (∀ l, s.VerifiedSlotInfos fromSlot = .ok l →
      ∀ p ∈ l, fromSlot ≤ p.1 ∧ p.1 ≤ s.persistedCursor) := by
  constructor
  · intro h
    unfold Store.VerifiedSlotInfos
    rw [if_pos h]
  · intro l hl p hp
    unfold Store.VerifiedSlotInfos at hl
    by_cases h : fromSlot > s.LatestSavedVerifiedSlot
    · rw [if_pos h] at hl
      cases hl
    · rw [if_neg h] at hl
      cases hl
      have hb := collectSlotInfos_mem_bounds s fromSlot s.LatestSavedVerifiedSlot p hp
      have hc := latestSaved_le_persistedCursor s
      omega

/-- C4 witness: on store10b (persisted cursor 10, one verdict at slot 7), a
query from slot 11 fails with the invalid-slot error, and the entry returned
by a query from slot 5 lies between 5 and the persisted cursor. -/
theorem verifiedSlotInfos_spec_witness :
    store10b.VerifiedSlotInfos 11 = .error errInvalidSlot ∧
    (5 ≤ (7 : Nat) ∧ (7 : Nat) ≤ store10b.persistedCursor) :=
  ⟨(verifiedSlotInfos_spec store10b 11).1 (by decide),
   (verifiedSlotInfos_spec store10b 5).2 [(7, sampleInfo)] rfl
     (7, sampleInfo) (by simp)⟩

/-- Every member of the cache after an insertion is the inserted entry or an
old one. -/
theorem SlotCache.mem_insertDesc {V : Type} (slot : Nat) (v : V) (c : SlotCache V)
    (b : Nat × V) (hb : b ∈ SlotCache.insertDesc slot v c) :
    b = (slot, v) ∨ b ∈ c := by
  induction c with
  | nil =>
    simp [SlotCache.insertDesc] at hb
    exact Or.inl hb
  | cons a t ih =>
    rcases a with ⟨ak, aw⟩
    unfold SlotCache.insertDesc at hb
    by_cases h1 : ak < slot
    · rw [if_pos h1] at hb
      rcases List.mem_cons.mp hb with h | h
      · exact Or.inl h
      · exact Or.inr h
    · rw [if_neg h1] at hb
      by_cases h2 : ak = slot
      · rw [if_pos h2] at hb
        rcases List.mem_cons.mp hb with h | h
        · exact Or.inl h
        · exact Or.inr (List.mem_cons_of_mem _ h)
      · rw [if_neg h2] at hb
        rcases List.mem_cons.mp hb with h | h
        · exact Or.inr (h ▸ List.mem_cons_self _ _)
        · rcases ih h with h3 | h3
          · exact Or.inl h3
          · exact Or.inr (List.mem_cons_of_mem _ h3)

/-- Insertion keeps the strictly decreasing key order. -/
theorem SlotCache.sortedKeys_insertDesc {V : Type} (slot : Nat) (v : V) (c : SlotCache V)
    (hc : c.SortedKeys) : (SlotCache.insertDesc slot v c).SortedKeys := by
  induction c with
  | nil => simp [SlotCache.insertDesc]
  | cons a t ih =>
    rcases a with ⟨ak, aw⟩
    rcases List.pairwise_cons.mp hc with ⟨ha, ht⟩
    unfold SlotCache.insertDesc
    by_cases h1 : ak < slot
    · rw [if_pos h1]
      refine List.Pairwise.cons ?_ hc
      intro b hb
      rcases List.mem_cons.mp hb with h | h
      · rw [h]; exact h1
      · exact Nat.lt_trans (ha b h) h1
    · rw [if_neg h1]
      by_cases h2 : ak = slot
      · rw [if_pos h2]
        refine List.Pairwise.cons ?_ ht
        intro b hb
        exact h2 ▸ ha b hb
      · rw [if_neg h2]
        refine List.Pairwise.cons ?_ (ih ht)
        intro b hb
        rcases SlotCache.mem_insertDesc slot v t b hb with h | h
        · rw [h]; show slot < ak; omega
        · exact ha b h

/-- In a sorted cache every kept entry outranks every dropped entry. -/
theorem SlotCache.take_lt_drop {V : Type} (l : SlotCache V) (hl : l.SortedKeys)
    (max : Nat) (p q : Nat × V) (hp : p ∈ l.take max) (hq : q ∈ l.drop max) :
    q.1 < p.1 := by
  have hl2 : ((l.take max) ++ (l.drop max)).Pairwise fun p q => q.1 < p.1 := by
    rw [List.take_append_drop]
    exact hl
  exact (List.pairwise_append.mp hl2).2.2 p hp q hq

/-- After Remove(r), the lookup of any key at or below r finds nothing. -/
theorem SlotCache.find?_remove_le {V : Type} (c : SlotCache V) (r k : Nat) (hk : k ≤ r) :
    (SlotCache.remove r c).find? (fun p => p.1 == k) = none := by
  rw [List.find?_eq_none]
  intro x hx
  unfold SlotCache.remove at hx
  have hr : r < x.1 := by simpa using List.of_mem_filter hx
  simp only [beq_iff_eq]
  omega

/-- After Remove(r), the lookup of any key above r is unchanged. -/
theorem SlotCache.find?_remove_gt {V : Type} (c : SlotCache V) (r k : Nat) (hk : r < k) :
    (SlotCache.remove r c).find? (fun p => p.1 == k) = c.find? (fun p => p.1 == k) := by
  unfold SlotCache.remove
  induction c with
  | nil => rfl
  | cons a t ih =>
    by_cases hak : a.1 = k
    · have h1 : r < a.1 := by omega
      rw [List.filter_cons_of_pos (by simpa using h1)]
      rw [List.find?_cons_of_pos _ (by simpa using hak),
          List.find?_cons_of_pos _ (by simpa using hak)]
    · by_cases h1 : r < a.1
      · rw [List.filter_cons_of_pos (by simpa using h1)]
        rw [List.find?_cons_of_neg _ (by simpa using hak),
            List.find?_cons_of_neg _ (by simpa using hak)]
        exact ih
      · rw [List.filter_cons_of_neg (by simpa using h1)]
        rw [List.find?_cons_of_neg _ (by simpa using hak)]
        exact ih

/-- C8: after Remove(r), Get(k) returns the Invalid slot error for every key
k at or below r, and for every key k above r the result of Get(k) — present
or not — is exactly what it was before the call. -/
theorem slotCache_remove_spec {V : Type} (c : SlotCache V) (r k : Nat) :
    (k ≤ r → (SlotCache.remove r c).get k = .error invalidSlotMsg) ∧
    (r < k → (SlotCache.remove r c).get k = c.get k) := by
  constructor
  · intro hk
    unfold SlotCache.get
    rw [SlotCache.find?_remove_le c r k hk]
  · intro hk
    unfold SlotCache.get
    rw [SlotCache.find?_remove_gt c r k hk]

/-- C8 witness: removing up to slot 2 from the cache holding slots 3 and 1
makes Get(1) return the Invalid slot error and leaves Get(3) unchanged. -/
theorem slotCache_remove_spec_witness :
    (SlotCache.remove 2 [(3, 30), (1, 10)]).get 1 = .error invalidSlotMsg ∧
    (SlotCache.remove 2 [(3, 30), (1, 10)]).get 3 =
      SlotCache.get [(3, 30), (1, 10)] 3 :=
  ⟨(slotCache_remove_spec [(3, 30), (1, 10)] 2 1).1 (by decide),
   (slotCache_remove_spec [(3, 30), (1, 10)] 2 3).2 (by decide)⟩

/-- C7: the default capacity is 1024; Put never leaves more than max entries
in the cache; and whenever a Put evicts some key e, Get(k) returns the
Invalid slot error afterwards for every key k at or below e. -/
theorem slotCache_put_spec {V : Type} (max slot : Nat) (v : V) (c : SlotCache V)
    (hc : c.SortedKeys) (e k : Nat)
    (he : e ∈ SlotCache.evictedKeys max slot v c) (hk : k ≤ e) :
    maxCacheSize = 1024 ∧
    (SlotCache.put max slot v c).length ≤ max ∧
    (SlotCache.put max slot v c).get k = .error invalidSlotMsg := by
  refine ⟨rfl, ?_, ?_⟩
  · unfold SlotCache.put
    exact List.length_take_le max _
  · have hsorted := SlotCache.sortedKeys_insertDesc slot v c hc
    unfold SlotCache.evictedKeys at he
    rcases List.mem_map.mp he with ⟨q, hq, hqe⟩
    have hnone : ((SlotCache.insertDesc slot v c).take max).find?
        (fun p => p.1 == k) = none := by
      rw [List.find?_eq_none]
      intro x hx
      have hlt : q.1 < x.1 :=
        SlotCache.take_lt_drop _ hsorted max x q hx hq
      simp only [beq_iff_eq]
      omega
    unfold SlotCache.put SlotCache.get
    rw [hnone]

/-- C7 witness: at capacity 2, putting slot 3 into the cache holding slots 2
and 1 evicts slot 1; the cache keeps 2 entries and Get(1) afterwards returns
the Invalid slot error. -/
theorem slotCache_put_spec_witness :
    maxCacheSize = 1024 ∧
    (SlotCache.put 2 3 (30 : Nat) [(2, 20), (1, 10)]).length ≤ 2 ∧
    (SlotCache.put 2 3 (30 : Nat) [(2, 20), (1, 10)]).get 1 =
      .error invalidSlotMsg :=
  slotCache_put_spec 2 3 30 [(2, 20), (1, 10)] (by decide) 1 1 (by decide) (by decide)

end Orchestrator
